import Mathlib

/-!
Shallow embedding of the progress-aggregation and gamification core of the
Kramasikshna challenge-tracking server (`shared/schema.ts`,
`server/storage.ts`, `server/routes.ts`).

Conventions of the embedding:
* timestamps (`startDate`, `endDate`, `createdAt`, `date`, `earnedAt`) are
  milliseconds since the epoch, as `Int` (JS `Date.getTime()`);
* the JS number arithmetic `minutes / 60` at the presentation boundary is
  modelled in `ℚ`;
* JS truthiness tests on nullable fields (`x ? a : b`, `x || y`) are
  modelled explicitly: `null`/`undefined`, the number `0` and the empty
  string are falsy;
* the relational store (`db`) and the in-memory `Map`s of `MemStorage` are
  both modelled as a `Store` of row lists in insertion order; `[row] =
  await db.select()...` takes the head of the matching rows;
* `Math.random()`-based values (the `MemStorage.calculateStreaks`
  placeholder) are modelled by explicit oracle parameters.
-/

namespace Kramasikshna

/-- One millisecond-count per day, `1000 * 60 * 60 * 24`. -/
def msPerDay : Int := 86400000

/-- Row of the `challenges` table (`shared/schema.ts`). -/
structure Challenge where
  id : Nat
  userId : Nat
  name : String
  category : String
  duration : Int
  startDate : Int
  endDate : Option Int
  isCompleted : Bool
  createdAt : Int
deriving DecidableEq

/-- Row of the `tasks` table (`shared/schema.ts`). -/
structure Task where
  id : Nat
  challengeId : Nat
  name : String
  scheduledTime : Option String
  createdAt : Int
deriving DecidableEq

/-- Row of the `task_progress` table (`shared/schema.ts`); `status` is free
text with intended values `completed`, `no-action`, `partial`;
`hoursSpent` is stored in minutes. -/
structure TaskProgress where
  id : Nat
  taskId : Nat
  date : Int
  status : String
  hoursSpent : Option Int
  notes : Option String
  imageUrl : Option String
  createdAt : Int
deriving DecidableEq

/-- Row of the `badges` table (`shared/schema.ts`); `challengeId = none`
is an account-level badge. -/
structure Badge where
  id : Nat
  userId : Nat
  challengeId : Option Nat
  name : String
  description : String
  earnedAt : Int
deriving DecidableEq

/-- The `UserStats` result shape (`server/storage.ts`). -/
structure UserStats where
  activeChallenges : Nat
  completedTasks : Nat
  totalTasks : Nat
  hoursLogged : ℚ
  badgesCount : Nat
  longestStreak : Nat
  currentStreak : Nat
deriving DecidableEq

/-- The `ActivityItem` result shape (`server/storage.ts`); optional fields
are `Option`, `type` is one of `completed`, `created`, `missed`, `badge`. -/
structure ActivityItem where
  id : Nat
  type : String
  challengeId : Nat
  challengeName : String
  taskId : Option Nat
  taskName : Option String
  badgeId : Option Nat
  badgeName : Option String
  date : Int
  hoursSpent : Option ℚ
  status : Option String
deriving DecidableEq

/-- Validated payload of `insertChallengeSchema` (id, isCompleted, endDate,
createdAt omitted; the schema puts no lower bound on `duration`). -/
structure InsertChallenge where
  userId : Nat
  name : String
  category : String
  duration : Int
deriving DecidableEq

/-- Validated payload of `insertTaskSchema`. -/
structure InsertTask where
  challengeId : Nat
  name : String
  scheduledTime : Option String
deriving DecidableEq

/-- Validated payload of `insertTaskProgressSchema`. -/
structure InsertTaskProgress where
  taskId : Nat
  date : Int
  status : String
  hoursSpent : Option Int
  notes : Option String
  imageUrl : Option String
deriving DecidableEq

/-- Payload of `createBadgeIfNotExists` / `createBadge`. -/
structure InsertBadge where
  userId : Nat
  challengeId : Option Nat
  name : String
  description : String
deriving DecidableEq

/-- One task object inside a `POST /api/challenges` request body. -/
structure TaskInput where
  name : String
  scheduledTime : Option String
deriving DecidableEq

/-- Typed `POST /api/challenges` request body; `tasks` is `none` when the
field is absent or not an array. -/
structure CreateChallengeBody where
  name : String
  category : String
  duration : Int
  tasks : Option (List TaskInput)
deriving DecidableEq

/-- The backing store: row lists in insertion order plus the serial-id
counters. -/
structure Store where
  challenges : List Challenge
  tasks : List Task
  progress : List TaskProgress
  badges : List Badge
  nextChallengeId : Nat
  nextTaskId : Nat
  nextProgressId : Nat
  nextBadgeId : Nat
deriving DecidableEq

/-- JS `x || null` on a nullable number: `0` is falsy and becomes `null`. -/
def jsOrNull : Option Nat → Option Nat
  | some c => if c = 0 then none else some c
  | none => none

/-- JS `x || null` on a nullable integer quantity: `0` becomes `null`. -/
def jsOrNullInt : Option Int → Option Int
  | some m => if m = 0 then none else some m
  | none => none

/-- JS `x || null` on a nullable string: the empty string becomes `null`. -/
def jsOrNullStr : Option String → Option String
  | some t => if t = "" then none else some t
  | none => none

/-- JS `p.hoursSpent ? p.hoursSpent / 60 : undefined`: minutes to hours,
with `0` and `null` both mapping to `undefined`. -/
def jsHours : Option Int → Option ℚ
  | some m => if m = 0 then none else some ((m : ℚ) / 60)
  | none => none

/-- `getChallenge`: first row of `select ... where challenges.id = id`. -/
def getChallenge (id : Nat) (s : Store) : Option Challenge :=
  (s.challenges.filter fun ch => ch.id == id).head?

/-- `getChallengesByUserId`. -/
def getChallengesByUserId (userId : Nat) (s : Store) : List Challenge :=
  s.challenges.filter fun ch => ch.userId == userId

/-- `getTask`. -/
def getTask (id : Nat) (s : Store) : Option Task :=
  (s.tasks.filter fun t => t.id == id).head?

/-- `getTasksByChallengeId`. -/
def getTasksByChallengeId (challengeId : Nat) (s : Store) : List Task :=
  s.tasks.filter fun t => t.challengeId == challengeId

/-- Ascending-date order used by `getTaskProgressByTaskId`. -/
def progDateLe (a b : TaskProgress) : Prop := a.date ≤ b.date

instance : DecidableRel progDateLe := fun a b => Int.decLe a.date b.date

instance : IsTotal TaskProgress progDateLe := ⟨fun a b => le_total a.date b.date⟩

instance : IsTrans TaskProgress progDateLe := ⟨fun _ _ _ h h2 => le_trans h h2⟩

/-- `getTaskProgressByTaskId`: the task's entries ordered by date
ascending. -/
def getTaskProgressByTaskId (taskId : Nat) (s : Store) : List TaskProgress :=
  List.insertionSort progDateLe (s.progress.filter fun p => p.taskId == taskId)

/-- `getUserBadges`. -/
def getUserBadges (userId : Nat) (s : Store) : List Badge :=
  s.badges.filter fun b => b.userId == userId

/-- `DatabaseStorage.createChallenge`: `startDate = now`,
`endDate = startDate + duration` days, `isCompleted = false`. -/
def createChallenge (now : Int) (ic : InsertChallenge) (s : Store) :
    Challenge × Store :=
  let ch : Challenge :=
    { id := s.nextChallengeId, userId := ic.userId, name := ic.name,
      category := ic.category, duration := ic.duration, startDate := now,
      endDate := some (now + ic.duration * msPerDay), isCompleted := false,
      createdAt := now }
  (ch,
   { s with
       challenges := s.challenges ++ [ch]
       nextChallengeId := s.nextChallengeId + 1 })

/-- `DatabaseStorage.createTask`: `scheduledTime: x || null`. -/
def createTask (now : Int) (it : InsertTask) (s : Store) : Task × Store :=
  let t : Task :=
    { id := s.nextTaskId, challengeId := it.challengeId, name := it.name,
      scheduledTime := jsOrNullStr it.scheduledTime, createdAt := now }
  (t, { s with tasks := s.tasks ++ [t], nextTaskId := s.nextTaskId + 1 })

/-- `DatabaseStorage.logTaskProgress`: nullable fields coerced with
`x || null`. -/
def logTaskProgress (now : Int) (ip : InsertTaskProgress) (s : Store) :
    TaskProgress × Store :=
  let p : TaskProgress :=
    { id := s.nextProgressId, taskId := ip.taskId, date := ip.date,
      status := ip.status, hoursSpent := jsOrNullInt ip.hoursSpent,
      notes := jsOrNullStr ip.notes, imageUrl := jsOrNullStr ip.imageUrl,
      createdAt := now }
  (p,
   { s with
       progress := s.progress ++ [p]
       nextProgressId := s.nextProgressId + 1 })

/-- The `where` clause of the existence query in
`DatabaseStorage.createBadgeIfNotExists`: `userId` and `name` equal, and
`insertBadge.challengeId ? eq(challengeId, it) : challengeId IS NULL`
(so a truthy, i.e. nonzero, id is matched exactly and a null id matches
null). -/
def badgeKeyMatch (b : InsertBadge) (e : Badge) : Bool :=
  e.userId == b.userId && e.name == b.name &&
    (match b.challengeId with
     | some c => if c ≠ 0 then e.challengeId == some c else e.challengeId == none
     | none => e.challengeId == none)

/-- The existence query of `createBadgeIfNotExists`: first matching row. -/
def findBadge (b : InsertBadge) (s : Store) : Option Badge :=
  s.badges.find? (badgeKeyMatch b)

/-- `DatabaseStorage.createBadge`: inserts with
`challengeId: insertBadge.challengeId || null`. -/
def createBadge (now : Int) (b : InsertBadge) (s : Store) : Badge × Store :=
  let nb : Badge :=
    { id := s.nextBadgeId, userId := b.userId,
      challengeId := jsOrNull b.challengeId, name := b.name,
      description := b.description, earnedAt := now }
  (nb, { s with badges := s.badges ++ [nb], nextBadgeId := s.nextBadgeId + 1 })

/-- `DatabaseStorage.createBadgeIfNotExists`: return the existing row
unchanged when the query finds one, otherwise insert. -/
def createBadgeIfNotExists (now : Int) (b : InsertBadge) (s : Store) :
    Badge × Store :=
  match findBadge b s with
  | some existingBadge => (existingBadge, s)
  | none => createBadge now b s

/-- State effect of `createBadgeIfNotExists`. -/
def awardBadgeAbsent (now : Int) (b : InsertBadge) (s : Store) : Store :=
  (createBadgeIfNotExists now b s).2

/-- `DatabaseStorage.markChallengeCompleted`:
`update challenges set isCompleted = true where id = id returning`;
the returned row is the first updated one, `undefined` if none matched. -/
def markChallengeCompleted (id : Nat) (s : Store) :
    Option Challenge × Store :=
  let updated := s.challenges.map fun ch =>
    if ch.id = id then { ch with isCompleted := true } else ch
  ((updated.filter fun ch => ch.id == id).head?,
   { s with challenges := updated })

/-- Rows of the inner-join query in `DatabaseStorage.calculateStreaks`:
one date per (progress, task, challenge) combination with
`challenges.userId = userId` and `taskProgress.status = completed`.
Only the row count is consumed, so the `orderBy desc` is immaterial. -/
def completedJoinDates (userId : Nat) (s : Store) : List Int :=
  s.progress.flatMap fun p =>
    if p.status == "completed" then
      (s.tasks.filter fun t => t.id == p.taskId).flatMap fun t =>
        (s.challenges.filter fun c =>
          c.id == t.challengeId && c.userId == userId).map fun _ => p.date
    else []

/-- Number of completed joined progress rows for a user. -/
def completedCount (userId : Nat) (s : Store) : Nat :=
  (completedJoinDates userId s).length

/-- `DatabaseStorage.calculateStreaks`: `(0, 0)` when the user has no
completed entries, otherwise
`currentStreak = min(ceil(n / 2), 14)` and `longestStreak = min(n, 30)`
where `n` is the number of completed entries (`Math.ceil(n / 2) = (n+1)/2`
on naturals). -/
def dbCalculateStreaks (userId : Nat) (s : Store) : Nat × Nat :=
  let n := completedCount userId s
  if n = 0 then (0, 0) else (min ((n + 1) / 2) 14, min n 30)

/-- `MemStorage.calculateStreaks`: a `Math.random()` placeholder
(`floor(random*30)+1`, `floor(random*60)+30`); the two random draws are
oracle parameters `rand1 ∈ [0, 30)` and `rand2 ∈ [0, 60)` here taken
modulo their ranges. -/
def memCalculateStreaks (rand1 rand2 : Nat) : Nat × Nat :=
  (rand1 % 30 + 1, rand2 % 60 + 30)

/-- `DatabaseStorage.getUserStats`: per challenge, `totalTasks` grows by
the number of its tasks; `completedTasks` by the number of its tasks
having some entry with status `completed`; `hoursLogged` by
`(entry.hoursSpent || 0) / 60` summed over all entries. -/
def dbGetUserStats (userId : Nat) (s : Store) : UserStats :=
  let chs := getChallengesByUserId userId s
  let streaks := dbCalculateStreaks userId s
  { activeChallenges := (chs.filter fun c => !c.isCompleted).length
    totalTasks :=
      (chs.map fun ch => (getTasksByChallengeId ch.id s).length).sum
    completedTasks :=
      (chs.map fun ch =>
        ((getTasksByChallengeId ch.id s).filter fun t =>
          (getTaskProgressByTaskId t.id s).any fun p =>
            p.status == "completed").length).sum
    hoursLogged :=
      (chs.map fun ch =>
        ((getTasksByChallengeId ch.id s).map fun t =>
          ((getTaskProgressByTaskId t.id s).map fun p =>
            ((p.hoursSpent.getD 0 : Int) : ℚ) / 60).sum).sum).sum
    badgesCount := (getUserBadges userId s).length
    longestStreak := streaks.2
    currentStreak := streaks.1 }

/-- The `Set<number>` of task ids built by `MemStorage.getUserStats`:
insertion-ordered, first occurrence kept. -/
def memUserTaskIds (userId : Nat) (s : Store) : List Nat :=
  (getChallengesByUserId userId s).foldl
    (fun acc ch =>
      (getTasksByChallengeId ch.id s).foldl
        (fun a t => if t.id ∈ a then a else a ++ [t.id]) acc)
    []

/-- `MemStorage.getUserStats`: `completedTasks` grows by the number of
completed entries of each task (`progress.filter(completed).length`), and
`hoursLogged` adds `p.hoursSpent / 60` only for truthy `hoursSpent`;
streak values come from the random placeholder (oracle parameters). -/
def memGetUserStats (rand1 rand2 userId : Nat) (s : Store) : UserStats :=
  let chs := getChallengesByUserId userId s
  let taskIds := memUserTaskIds userId s
  let streaks := memCalculateStreaks rand1 rand2
  { activeChallenges := (chs.filter fun c => !c.isCompleted).length
    totalTasks := taskIds.length
    completedTasks :=
      (taskIds.map fun tid =>
        ((getTaskProgressByTaskId tid s).filter fun p =>
          p.status == "completed").length).sum
    hoursLogged :=
      (taskIds.map fun tid =>
        ((getTaskProgressByTaskId tid s).map fun p =>
          match p.hoursSpent with
          | some m => if m = 0 then 0 else (m : ℚ) / 60
          | none => 0).sum).sum
    badgesCount := (getUserBadges userId s).length
    longestStreak := streaks.2
    currentStreak := streaks.1 }

/-- Conditional award step of `checkAndAwardBadges`
(`if (daysDiff >= k) await createBadgeIfNotExists(...)`). -/
def awardIf (cond : Bool) (now : Int) (b : InsertBadge) (s : Store) :
    Store :=
  if cond then awardBadgeAbsent now b s else s

/-- The "7-Day Streak" badge payload of `checkAndAwardBadges`. -/
def badge7 (userId challengeId : Nat) : InsertBadge :=
  { userId := userId, challengeId := some challengeId,
    name := "7-Day Streak",
    description := "Completed 7 consecutive days of tasks" }

/-- The "21-Day Streak" badge payload of `checkAndAwardBadges`. -/
def badge21 (userId challengeId : Nat) : InsertBadge :=
  { userId := userId, challengeId := some challengeId,
    name := "21-Day Streak",
    description := "Completed 21 consecutive days of tasks - habit formed!" }

/-- The "30-Day Milestone" badge payload of `checkAndAwardBadges`. -/
def badge30 (userId challengeId : Nat) : InsertBadge :=
  { userId := userId, challengeId := some challengeId,
    name := "30-Day Milestone",
    description := "Completed a full month of tasks" }

/-- The "Challenge Completed" badge payload of `checkAndAwardBadges`. -/
def badgeCC (userId challengeId : Nat) (challengeName : String) :
    InsertBadge :=
  { userId := userId, challengeId := some challengeId,
    name := "Challenge Completed",
    description := "Completed the " ++ challengeName ++ " challenge" }

/-- `checkAndAwardBadges` (`server/routes.ts`): after a progress log,
award the 7/21/30-day badges whenever
`daysDiff = floor((now - startDate) / 1 day)` reaches the threshold, and
when `duration <= daysDiff + 1` mark the challenge completed and award the
"Challenge Completed" badge; a missing challenge makes the whole call a
no-op. -/
def checkAndAwardBadges (now : Int) (userId challengeId : Nat) (s : Store) :
    Store :=
  match getChallenge challengeId s with
  | none => s
  | some challenge =>
    let daysDiff : Int := (now - challenge.startDate).fdiv msPerDay
    let s3 :=
      awardIf (decide (30 ≤ daysDiff)) now (badge30 userId challengeId)
        (awardIf (decide (21 ≤ daysDiff)) now (badge21 userId challengeId)
          (awardIf (decide (7 ≤ daysDiff)) now (badge7 userId challengeId) s))
    if challenge.duration ≤ daysDiff + 1 then
      awardBadgeAbsent now (badgeCC userId challengeId challenge.name)
        (markChallengeCompleted challengeId s3).2
    else s3

/-- Descending-date order of the final activity sort
(`sort((a, b) => b.date - a.date)`). -/
def dateGe (a b : ActivityItem) : Prop := b.date ≤ a.date

instance : DecidableRel dateGe := fun a b => Int.decLe b.date a.date

instance : IsTotal ActivityItem dateGe := ⟨fun a b => le_total b.date a.date⟩

instance : IsTrans ActivityItem dateGe := ⟨fun _ _ _ h h2 => le_trans h2 h⟩

/-- The final `sort by date, newest first` step of both `getUserActivity`
implementations (a stable sort, as ECMAScript guarantees). -/
def sortActivityDesc (l : List ActivityItem) : List ActivityItem :=
  List.insertionSort dateGe l

/-- The `activityId++` synthetic ids: position in generation order,
starting at 1. -/
def withActivityIds (l : List ActivityItem) : List ActivityItem :=
  l.enum.map fun p => { p.2 with id := p.1 + 1 }

/-- A blank activity item, filled per variant below. -/
def blankItem : ActivityItem :=
  { id := 0, type := "", challengeId := 0, challengeName := "",
    taskId := none, taskName := none, badgeId := none, badgeName := none,
    date := 0, hoursSpent := none, status := none }

/-- First loop of `DatabaseStorage.getUserActivity`: a `created` item per
challenge, plus a challenge-level `completed` item (dated at `endDate`,
falling back to `now` when null) for completed challenges. -/
def dbChallengeItems (now : Int) (userId : Nat) (s : Store) :
    List ActivityItem :=
  (getChallengesByUserId userId s).flatMap fun ch =>
    [{ blankItem with
         type := "created", challengeId := ch.id, challengeName := ch.name,
         date := ch.createdAt }]
    ++ (if ch.isCompleted then
          [{ blankItem with
               type := "completed", challengeId := ch.id,
               challengeName := ch.name, date := ch.endDate.getD now }]
        else [])

/-- Second loop of `DatabaseStorage.getUserActivity`: one item per
progress entry of each task, typed
`progress.status === 'missed' ? 'missed' : 'completed'`. -/
def dbProgressItems (userId : Nat) (s : Store) : List ActivityItem :=
  (getChallengesByUserId userId s).flatMap fun ch =>
    (getTasksByChallengeId ch.id s).flatMap fun t =>
      (getTaskProgressByTaskId t.id s).map fun p =>
        { blankItem with
            type := if p.status == "missed" then "missed" else "completed"
            challengeId := ch.id, challengeName := ch.name
            taskId := some t.id, taskName := some t.name
            date := p.date, status := some p.status
            hoursSpent := jsHours p.hoursSpent }

/-- Third loop of `DatabaseStorage.getUserActivity`: one `badge` item per
badge; the related challenge is looked up only for a truthy `challengeId`,
and `relatedChallenge?.name || 'System'` falls back on a missing challenge
or an empty name. -/
def dbBadgeItems (userId : Nat) (s : Store) : List ActivityItem :=
  (getUserBadges userId s).map fun b =>
    let rel : Option Challenge :=
      match b.challengeId with
      | some c => if c ≠ 0 then getChallenge c s else none
      | none => none
    { blankItem with
        type := "badge", challengeId := b.challengeId.getD 0
        challengeName :=
          match rel with
          | some ch => if ch.name = "" then "System" else ch.name
          | none => "System"
        badgeId := some b.id, badgeName := some b.name, date := b.earnedAt }

/-- The merged sequence generated by `DatabaseStorage.getUserActivity`
before the final sort, with synthetic ids. -/
def dbGenActivities (now : Int) (userId : Nat) (s : Store) :
    List ActivityItem :=
  withActivityIds
    (dbChallengeItems now userId s ++ dbProgressItems userId s
      ++ dbBadgeItems userId s)

/-- `DatabaseStorage.getUserActivity`: the merged sequence sorted by date
descending as the final step. -/
def dbGetUserActivity (now : Int) (userId : Nat) (s : Store) :
    List ActivityItem :=
  sortActivityDesc (dbGenActivities now userId s)

/-- The merged sequence generated by `MemStorage.getUserActivity`: per
challenge a `created` item followed by its task-progress items (typed
`p.status === 'completed' ? 'completed' : 'missed'`), then badge items
(challenge name falling back to "General"). -/
def memGenActivities (userId : Nat) (s : Store) : List ActivityItem :=
  withActivityIds
    (((getChallengesByUserId userId s).flatMap fun ch =>
        { blankItem with
            type := "created", challengeId := ch.id,
            challengeName := ch.name, date := ch.createdAt }
        :: ((getTasksByChallengeId ch.id s).flatMap fun t =>
              (getTaskProgressByTaskId t.id s).map fun p =>
                { blankItem with
                    type := if p.status == "completed" then "completed"
                            else "missed"
                    challengeId := ch.id, challengeName := ch.name
                    taskId := some t.id, taskName := some t.name
                    date := p.date, status := some p.status
                    hoursSpent := jsHours p.hoursSpent }))
      ++ (getUserBadges userId s).map fun b =>
           let rel : Option Challenge :=
             match b.challengeId with
             | some c => if c ≠ 0 then getChallenge c s else none
             | none => none
           { blankItem with
               type := "badge", challengeId := b.challengeId.getD 0
               challengeName :=
                 match rel with
                 | some ch => ch.name
                 | none => "General"
               badgeId := some b.id, badgeName := some b.name,
               date := b.earnedAt })

/-- `MemStorage.getUserActivity`: merged sequence sorted by date
descending. -/
def memGetUserActivity (userId : Nat) (s : Store) : List ActivityItem :=
  sortActivityDesc (memGenActivities userId s)

/-- The server-side validation actually applied by `POST /api/challenges`
(`insertChallengeSchema`): field typing only — the typed
`CreateChallengeBody` always passes, and in particular no lower bound on
`duration` and no constraint on `tasks` is checked. -/
def insertChallengeParse (userId : Nat) (body : CreateChallengeBody) :
    InsertChallenge :=
  { userId := userId, name := body.name, category := body.category,
    duration := body.duration }

/-- The `POST /api/challenges` handler (`registerRoutes`): parse with
`insertChallengeSchema`, create the challenge, then create each task of
`req.body.tasks` when that field is an array; respond `201` with the
challenge. -/
def postChallenge (now : Int) (userId : Nat) (body : CreateChallengeBody)
    (s : Store) : (Nat × Option Challenge) × Store :=
  let cs := createChallenge now (insertChallengeParse userId body) s
  let s2 :=
    match body.tasks with
    | some ts =>
        ts.foldl
          (fun st t =>
            (createTask now
              { challengeId := cs.1.id, name := t.name,
                scheduledTime := t.scheduledTime } st).2)
          cs.2
    | none => cs.2
  ((201, some cs.1), s2)

/-- The client-side `createChallengeSchema` (`shared/schema.ts`): name at
least 3 characters, category nonempty, `duration ≥ 1`, at least one task,
every task name nonempty. The route does not apply it. -/
def createChallengeSchemaCheck (body : CreateChallengeBody) : Bool :=
  3 ≤ body.name.length && 1 ≤ body.category.length && 1 ≤ body.duration &&
    (match body.tasks with
     | some ts => 1 ≤ ts.length && ts.all fun t => 1 ≤ t.name.length
     | none => false)

/-- The mutating operations of the modelled core, for store-wide
invariants. -/
inductive Op where
  | opCreateChallenge (now : Int) (ic : InsertChallenge)
  | opCreateTask (now : Int) (it : InsertTask)
  | opLogTaskProgress (now : Int) (ip : InsertTaskProgress)
  | opCreateBadge (now : Int) (b : InsertBadge)
  | opCreateBadgeIfNotExists (now : Int) (b : InsertBadge)
  | opMarkChallengeCompleted (id : Nat)
  | opCheckAndAwardBadges (now : Int) (userId challengeId : Nat)
  | opPostChallenge (now : Int) (userId : Nat) (body : CreateChallengeBody)

/-- State effect of each operation. -/
def applyOp (op : Op) (s : Store) : Store :=
  match op with
  | .opCreateChallenge now ic => (createChallenge now ic s).2
  | .opCreateTask now it => (createTask now it s).2
  | .opLogTaskProgress now ip => (logTaskProgress now ip s).2
  | .opCreateBadge now b => (createBadge now b s).2
  | .opCreateBadgeIfNotExists now b => (createBadgeIfNotExists now b s).2
  | .opMarkChallengeCompleted id => (markChallengeCompleted id s).2
  | .opCheckAndAwardBadges now u c => checkAndAwardBadges now u c s
  | .opPostChallenge now u body => (postChallenge now u body s).2

/-- Specification-side count: one per task of each of the user's
challenges. -/
def specTotalTasks (userId : Nat) (s : Store) : Nat :=
  ((getChallengesByUserId userId s).flatMap fun ch =>
    getTasksByChallengeId ch.id s).length

/-- Specification-side count: one per task of the user's challenges having
at least one progress entry with status `completed`, each such task
counted exactly once. -/
def specCompletedTasks (userId : Nat) (s : Store) : Nat :=
  (((getChallengesByUserId userId s).flatMap fun ch =>
      getTasksByChallengeId ch.id s).filter fun t =>
    (getTaskProgressByTaskId t.id s).any fun p =>
      p.status == "completed").length

/-- Length of the run of consecutive day numbers present in `days`
starting at `d` (`fuel`-bounded; `days.length` fuel suffices since a run
visits distinct members). -/
def runLen (days : List Int) (d : Int) : Nat → Nat
  | 0 => 0
  | fuel + 1 => if d ∈ days then 1 + runLen days (d + 1) fuel else 0

/-- Modelled from the spec: `longestStreak` is the length in days of the
longest run of consecutive calendar dates each having at least one
completed entry; multiple same-day completions collapse because `runLen`
is membership-based. Input: the calendar-day numbers of the user's
completed entries. -/
def specLongestStreak (days : List Int) : Nat :=
  (days.map fun d => runLen days d days.length).foldl max 0

/-- Calendar-day numbers of the user's completed entries,
`floor(timestamp / 1 day)`. -/
def completedDayNumbers (userId : Nat) (s : Store) : List Int :=
  (completedJoinDates userId s).map fun d => d.fdiv msPerDay

/-- A badge with the given owner, scope and name is present. -/
def hasBadge (s : Store) (userId : Nat) (challengeId : Option Nat)
    (name : String) : Prop :=
  ∃ b ∈ s.badges, b.userId = userId ∧ b.challengeId = challengeId ∧
    b.name = name

/-- A badge with the given owner, scope, name and description is
present. -/
def hasBadgeDesc (s : Store) (userId : Nat) (challengeId : Option Nat)
    (name : String) (description : String) : Prop :=
  ∃ b ∈ s.badges, b.userId = userId ∧ b.challengeId = challengeId ∧
    b.name = name ∧ b.description = description

/-- The identity triple of a badge row. -/
def badgeKey (b : Badge) : Nat × String × Option Nat :=
  (b.userId, b.name, b.challengeId)

/-- No two badge rows share their (userId, name, challengeId) triple. -/
def BadgeKeysNodup (s : Store) : Prop :=
  (s.badges.map badgeKey).Nodup

instance (s : Store) : Decidable (BadgeKeysNodup s) :=
  List.nodupDecidable _

instance (s : Store) (userId : Nat) (challengeId : Option Nat)
    (name : String) : Decidable (hasBadge s userId challengeId name) := by
  unfold hasBadge; infer_instance

instance (s : Store) (userId : Nat) (challengeId : Option Nat)
    (name description : String) :
    Decidable (hasBadgeDesc s userId challengeId name description) := by
  unfold hasBadgeDesc; infer_instance

/-- Example store for the stats fold: user 1 has challenge 1 with tasks 1
(one completed and one partial entry) and 2 (no entries), and challenge 2
with task 3 (one completed entry). -/
def statsExStore : Store :=
  { challenges :=
      [{ id := 1, userId := 1, name := "C1", category := "fitness",
         duration := 30, startDate := 0, endDate := some (30 * msPerDay),
         isCompleted := false, createdAt := 0 },
       { id := 2, userId := 1, name := "C2", category := "study",
         duration := 30, startDate := 0, endDate := some (30 * msPerDay),
         isCompleted := false, createdAt := 0 }]
    tasks :=
      [{ id := 1, challengeId := 1, name := "T1", scheduledTime := none,
         createdAt := 0 },
       { id := 2, challengeId := 1, name := "T2", scheduledTime := none,
         createdAt := 0 },
       { id := 3, challengeId := 2, name := "T3", scheduledTime := none,
         createdAt := 0 }]
    progress :=
      [{ id := 1, taskId := 1, date := msPerDay, status := "completed",
         hoursSpent := some 60, notes := none, imageUrl := none,
         createdAt := msPerDay },
       { id := 2, taskId := 1, date := 2 * msPerDay, status := "partial",
         hoursSpent := some 30, notes := none, imageUrl := none,
         createdAt := 2 * msPerDay },
       { id := 3, taskId := 3, date := msPerDay, status := "completed",
         hoursSpent := none, notes := none, imageUrl := none,
         createdAt := msPerDay }]
    badges := []
    nextChallengeId := 3, nextTaskId := 4, nextProgressId := 4,
    nextBadgeId := 1 }

/-- Store exhibiting the `MemStorage.getUserStats` per-entry counting:
user 1, one challenge, one task, two completed entries for that task. -/
def memStatsCxStore : Store :=
  { challenges :=
      [{ id := 1, userId := 1, name := "C1", category := "fitness",
         duration := 30, startDate := 0, endDate := some (30 * msPerDay),
         isCompleted := false, createdAt := 0 }]
    tasks :=
      [{ id := 1, challengeId := 1, name := "T1", scheduledTime := none,
         createdAt := 0 }]
    progress :=
      [{ id := 1, taskId := 1, date := msPerDay, status := "completed",
         hoursSpent := none, notes := none, imageUrl := none,
         createdAt := msPerDay },
       { id := 2, taskId := 1, date := 2 * msPerDay, status := "completed",
         hoursSpent := none, notes := none, imageUrl := none,
         createdAt := 2 * msPerDay }]
    badges := []
    nextChallengeId := 2, nextTaskId := 2, nextProgressId := 3,
    nextBadgeId := 1 }

/-- Store for the streak placeholder: user 1 with three completed entries
all dated on the same calendar day (day 5). -/
def streakCxStore : Store :=
  { challenges :=
      [{ id := 1, userId := 1, name := "C1", category := "fitness",
         duration := 30, startDate := 0, endDate := some (30 * msPerDay),
         isCompleted := false, createdAt := 0 }]
    tasks :=
      [{ id := 1, challengeId := 1, name := "T1", scheduledTime := none,
         createdAt := 0 }]
    progress :=
      [{ id := 1, taskId := 1, date := 5 * msPerDay, status := "completed",
         hoursSpent := none, notes := none, imageUrl := none,
         createdAt := 5 * msPerDay },
       { id := 2, taskId := 1, date := 5 * msPerDay, status := "completed",
         hoursSpent := none, notes := none, imageUrl := none,
         createdAt := 5 * msPerDay },
       { id := 3, taskId := 1, date := 5 * msPerDay, status := "completed",
         hoursSpent := none, notes := none, imageUrl := none,
         createdAt := 5 * msPerDay }]
    badges := []
    nextChallengeId := 2, nextTaskId := 2, nextProgressId := 4,
    nextBadgeId := 1 }

/-- Store with a single `no-action` progress entry for user 1. -/
def noActionStore : Store :=
  { challenges :=
      [{ id := 1, userId := 1, name := "C1", category := "fitness",
         duration := 30, startDate := 0, endDate := some (30 * msPerDay),
         isCompleted := false, createdAt := 0 }]
    tasks :=
      [{ id := 1, challengeId := 1, name := "T1", scheduledTime := none,
         createdAt := 0 }]
    progress :=
      [{ id := 1, taskId := 1, date := 3 * msPerDay, status := "no-action",
         hoursSpent := some 30, notes := none, imageUrl := none,
         createdAt := 3 * msPerDay }]
    badges := []
    nextChallengeId := 2, nextTaskId := 2, nextProgressId := 2,
    nextBadgeId := 1 }

/-- Store for the activity-merge example: a challenge created on day 1, a
completed-task entry on day 3, a badge earned on day 5 (days as
timestamps 1, 3, 5). -/
def activityExStore : Store :=
  { challenges :=
      [{ id := 1, userId := 1, name := "C1", category := "fitness",
         duration := 30, startDate := 1, endDate := some 9,
         isCompleted := false, createdAt := 1 }]
    tasks :=
      [{ id := 1, challengeId := 1, name := "T1", scheduledTime := none,
         createdAt := 1 }]
    progress :=
      [{ id := 1, taskId := 1, date := 3, status := "completed",
         hoursSpent := some 60, notes := none, imageUrl := none,
         createdAt := 3 }]
    badges :=
      [{ id := 1, userId := 1, challengeId := some 1,
         name := "7-Day Streak",
         description := "Completed 7 consecutive days of tasks",
         earnedAt := 5 }]
    nextChallengeId := 2, nextTaskId := 2, nextProgressId := 2,
    nextBadgeId := 2 }

/-- Milliseconds of 2024-01-01T00:00:00Z. -/
def jan1 : Int := 1704067200000

/-- Milliseconds of 2024-01-08T00:00:00Z. -/
def jan8 : Int := 1704672000000

/-- Store for the badge-award scenario: a duration-7 challenge started on
2024-01-01. -/
def badgeScenStore : Store :=
  { challenges :=
      [{ id := 1, userId := 1, name := "Morning Run", category := "fitness",
         duration := 7, startDate := jan1,
         endDate := some (jan1 + 7 * msPerDay), isCompleted := false,
         createdAt := jan1 }]
    tasks :=
      [{ id := 1, challengeId := 1, name := "Run", scheduledTime := none,
         createdAt := jan1 }]
    progress :=
      [{ id := 1, taskId := 1, date := jan8, status := "completed",
         hoursSpent := some 30, notes := none, imageUrl := none,
         createdAt := jan8 }]
    badges := []
    nextChallengeId := 2, nextTaskId := 2, nextProgressId := 2,
    nextBadgeId := 1 }

/-- An empty store. -/
def emptyStore : Store :=
  { challenges := [], tasks := [], progress := [], badges := [],
    nextChallengeId := 1, nextTaskId := 1, nextProgressId := 1,
    nextBadgeId := 1 }

/-- Store holding one pre-existing badge, for instantiating the
found-case of `createBadgeIfNotExists`. -/
def oneBadgeStore : Store :=
  { emptyStore with
      badges :=
        [{ id := 1, userId := 1, challengeId := some 1,
           name := "7-Day Streak",
           description := "Completed 7 consecutive days of tasks",
           earnedAt := 0 }]
      nextBadgeId := 2 }

/-! Helper lemmas shared by the claim theorems. -/

theorem award_challenges (now : Int) (b : InsertBadge) (s : Store) :
    (awardBadgeAbsent now b s).challenges = s.challenges := by
  unfold awardBadgeAbsent createBadgeIfNotExists
  cases findBadge b s <;> rfl

theorem awardIf_challenges (cond : Bool) (now : Int) (b : InsertBadge)
    (s : Store) : (awardIf cond now b s).challenges = s.challenges := by
  unfold awardIf
  cases cond
  · rfl
  · exact award_challenges now b s

theorem award_badges_mono (now : Int) (b : InsertBadge) (s : Store)
    {x : Badge} (hx : x ∈ s.badges) :
    x ∈ (awardBadgeAbsent now b s).badges := by
  unfold awardBadgeAbsent createBadgeIfNotExists
  cases findBadge b s
  · simp [createBadge]
    exact Or.inl hx
  · exact hx

theorem awardIf_badges_mono (cond : Bool) (now : Int) (b : InsertBadge)
    (s : Store) {x : Badge} (hx : x ∈ s.badges) :
    x ∈ (awardIf cond now b s).badges := by
  unfold awardIf
  cases cond
  · exact hx
  · exact award_badges_mono now b s hx

theorem mark_badges (id : Nat) (s : Store) :
    (markChallengeCompleted id s).2.badges = s.badges := rfl

theorem award_found (now : Int) (b : InsertBadge) (s : Store) {e : Badge}
    (h : findBadge b s = some e) : awardBadgeAbsent now b s = s := by
  unfold awardBadgeAbsent createBadgeIfNotExists
  rw [h]

theorem award_noop_of_isSome (now : Int) (b : InsertBadge) (s : Store)
    (h : (findBadge b s).isSome) : awardBadgeAbsent now b s = s := by
  obtain ⟨e, he⟩ := Option.isSome_iff_exists.mp h
  exact award_found now b s he

theorem awardIf_noop_of_isSome (cond : Bool) (now : Int) (b : InsertBadge)
    (s : Store) (h : (findBadge b s).isSome) : awardIf cond now b s = s := by
  unfold awardIf
  cases cond
  · rfl
  · exact award_noop_of_isSome now b s h

theorem badgeKeyMatch_createBadge (now : Int) (b : InsertBadge) (s : Store) :
    badgeKeyMatch b (createBadge now b s).1 = true := by
  unfold badgeKeyMatch createBadge jsOrNull
  cases hb : b.challengeId with
  | none => simp
  | some c =>
      by_cases hc : c = 0 <;> simp [hc]

theorem award_establishes (now : Int) (b : InsertBadge) (s : Store) :
    (findBadge b (awardBadgeAbsent now b s)).isSome := by
  unfold awardBadgeAbsent createBadgeIfNotExists
  cases h : findBadge b s with
  | some e => simpa using congrArg Option.isSome h
  | none =>
      show (findBadge b { s with
        badges := s.badges ++ [(createBadge now b s).1],
        nextBadgeId := s.nextBadgeId + 1 }).isSome
      unfold findBadge at h ⊢
      rw [List.find?_append, h]
      simp [badgeKeyMatch_createBadge]

theorem find_mono_award (now : Int) (b b2 : InsertBadge) (s : Store)
    (h : (findBadge b s).isSome) :
    (findBadge b (awardBadgeAbsent now b2 s)).isSome := by
  unfold awardBadgeAbsent createBadgeIfNotExists
  cases h2 : findBadge b2 s with
  | some e => exact h
  | none =>
      show (findBadge b { s with
        badges := s.badges ++ [(createBadge now b2 s).1],
        nextBadgeId := s.nextBadgeId + 1 }).isSome
      unfold findBadge at h ⊢
      rw [List.find?_append]
      obtain ⟨e, he⟩ := Option.isSome_iff_exists.mp h
      rw [he]
      rfl

theorem find_mono_awardIf (cond : Bool) (now : Int) (b b2 : InsertBadge)
    (s : Store) (h : (findBadge b s).isSome) :
    (findBadge b (awardIf cond now b2 s)).isSome := by
  unfold awardIf
  cases cond
  · exact h
  · exact find_mono_award now b b2 s h

theorem find_mark (b : InsertBadge) (id : Nat) (s : Store) :
    findBadge b (markChallengeCompleted id s).2 = findBadge b s := rfl

theorem awardIf_establishes (now : Int) (b : InsertBadge) (s : Store) :
    (findBadge b (awardIf true now b s)).isSome :=
  award_establishes now b s

theorem mark_sets_completed (cid : Nat) (s : Store) {x : Challenge}
    (hx : x ∈ (markChallengeCompleted cid s).2.challenges)
    (hid : x.id = cid) : x.isCompleted = true := by
  unfold markChallengeCompleted at hx
  simp only [List.mem_map] at hx
  obtain ⟨a, _, ha⟩ := hx
  by_cases h : a.id = cid
  · rw [← ha]
    simp [h]
  · rw [← ha] at hid
    rw [if_neg h] at hid
    exact absurd hid h

theorem completed_update_self {x : Challenge} (h : x.isCompleted = true) :
    { x with isCompleted := true } = x := by
  cases x
  simp_all

theorem completed_map_id (cid : Nat) (s : Store)
    (h : ∀ x ∈ s.challenges, x.id = cid → x.isCompleted = true) :
    s.challenges.map
      (fun ch => if ch.id = cid then { ch with isCompleted := true } else ch)
      = s.challenges := by
  have heach : ∀ a ∈ s.challenges,
      (if a.id = cid then { a with isCompleted := true } else a)
        = (fun x => x) a := by
    intro a ha
    by_cases hid : a.id = cid
    · rw [if_pos hid]
      exact completed_update_self (h a ha hid)
    · simp [hid]
  rw [List.map_congr_left heach, List.map_id' _]

theorem mark_eq_of_completed (cid : Nat) (s : Store)
    (h : ∀ x ∈ s.challenges, x.id = cid → x.isCompleted = true) :
    markChallengeCompleted cid s = (getChallenge cid s, s) := by
  unfold markChallengeCompleted getChallenge
  rw [completed_map_id cid s h]

theorem mark_noop_of_completed (cid : Nat) (s : Store)
    (h : ∀ x ∈ s.challenges, x.id = cid → x.isCompleted = true) :
    (markChallengeCompleted cid s).2 = s := by
  rw [mark_eq_of_completed cid s h]

theorem filter_map_id_comm (f : Challenge → Challenge) (p : Challenge → Bool)
    (l : List Challenge) (hf : ∀ a, p (f a) = p a) :
    (l.map f).filter p = (l.filter p).map f := by
  induction l with
  | nil => rfl
  | cons a l ih =>
      by_cases hp : p a = true
      · simp [List.filter_cons, hf, hp, ih]
      · simp only [List.map_cons, List.filter_cons, hf a, hp]
        simpa [hp] using ih

theorem getChallenge_award (now : Int) (b : InsertBadge) (c : Nat)
    (s : Store) :
    getChallenge c (awardBadgeAbsent now b s) = getChallenge c s := by
  unfold getChallenge
  rw [award_challenges]

theorem getChallenge_awardIf (cond : Bool) (now : Int) (b : InsertBadge)
    (c : Nat) (s : Store) :
    getChallenge c (awardIf cond now b s) = getChallenge c s := by
  unfold getChallenge
  rw [awardIf_challenges]

theorem getChallenge_mark (id c : Nat) (s : Store) :
    getChallenge c (markChallengeCompleted id s).2
      = Option.map
          (fun ch => if ch.id = id then { ch with isCompleted := true } else ch)
          (getChallenge c s) := by
  unfold getChallenge markChallengeCompleted
  rw [filter_map_id_comm _ _ _ ?_, List.head?_map]
  intro a
  by_cases h : a.id = id <;> simp [h]

theorem caab_none (now : Int) (u c : Nat) (s : Store)
    (hg : getChallenge c s = none) : checkAndAwardBadges now u c s = s := by
  unfold checkAndAwardBadges
  rw [hg]

theorem caab_some (now : Int) (u c : Nat) (s : Store) (ch : Challenge)
    (hg : getChallenge c s = some ch) :
    checkAndAwardBadges now u c s =
      (if ch.duration ≤ (now - ch.startDate).fdiv msPerDay + 1 then
        awardBadgeAbsent now (badgeCC u c ch.name)
          (markChallengeCompleted c
            (awardIf (decide (30 ≤ (now - ch.startDate).fdiv msPerDay)) now
              (badge30 u c)
              (awardIf (decide (21 ≤ (now - ch.startDate).fdiv msPerDay)) now
                (badge21 u c)
                (awardIf (decide (7 ≤ (now - ch.startDate).fdiv msPerDay)) now
                  (badge7 u c) s)))).2
      else
        awardIf (decide (30 ≤ (now - ch.startDate).fdiv msPerDay)) now
          (badge30 u c)
          (awardIf (decide (21 ≤ (now - ch.startDate).fdiv msPerDay)) now
            (badge21 u c)
            (awardIf (decide (7 ≤ (now - ch.startDate).fdiv msPerDay)) now
              (badge7 u c) s))) := by
  unfold checkAndAwardBadges
  rw [hg]

theorem caab_challenges (now : Int) (u c : Nat) (s : Store) :
    (checkAndAwardBadges now u c s).challenges = s.challenges
    ∨ (checkAndAwardBadges now u c s).challenges
        = s.challenges.map fun x =>
            if x.id = c then { x with isCompleted := true } else x := by
  cases hg : getChallenge c s with
  | none => exact Or.inl (by rw [caab_none now u c s hg])
  | some ch =>
      rw [caab_some now u c s ch hg]
      by_cases hdur :
          ch.duration ≤ (now - ch.startDate).fdiv msPerDay + 1
      · right
        rw [if_pos hdur, award_challenges]
        show (_ : Store).challenges.map _ = _
        rw [awardIf_challenges, awardIf_challenges, awardIf_challenges]
      · left
        rw [if_neg hdur, awardIf_challenges, awardIf_challenges,
          awardIf_challenges]

theorem foldl_createTask_challenges (now : Int) (cid : Nat)
    (ts : List TaskInput) (s : Store) :
    (ts.foldl
      (fun st t =>
        (createTask now
          { challengeId := cid, name := t.name,
            scheduledTime := t.scheduledTime } st).2) s).challenges
      = s.challenges := by
  induction ts generalizing s with
  | nil => rfl
  | cons t ts ih =>
      rw [List.foldl_cons]
      exact ih _

/-! Claim theorems. -/

/-- C10: in the database implementation, whenever a user has `n ≥ 1`
completed progress entries, `calculateStreaks` returns exactly
`currentStreak = min(ceil(n / 2), 14)` and `longestStreak = min(n, 30)`,
independent of the entries' dates, and its output always satisfies
`currentStreak ≤ longestStreak`, `currentStreak ≤ 14` and
`longestStreak ≤ 30`. -/
theorem dbCalculateStreaks_formula (u : Nat) (s : Store) :
    (1 ≤ completedCount u s →
        dbCalculateStreaks u s
          = (min ((completedCount u s + 1) / 2) 14,
             min (completedCount u s) 30))
    ∧ (∀ s₁ s₂ : Store, completedCount u s₁ = completedCount u s₂ →
        dbCalculateStreaks u s₁ = dbCalculateStreaks u s₂)
    ∧ (dbCalculateStreaks u s).1 ≤ (dbCalculateStreaks u s).2
    ∧ (dbCalculateStreaks u s).1 ≤ 14
    ∧ (dbCalculateStreaks u s).2 ≤ 30 := by
  refine ⟨?_, ?_, ?_, ?_, ?_⟩
  · intro h
    unfold dbCalculateStreaks
    rw [if_neg (by omega)]
  · intro s₁ s₂ h
    unfold dbCalculateStreaks
    rw [h]
  · unfold dbCalculateStreaks
    by_cases h : completedCount u s = 0
    · simp [h]
    · rw [if_neg h]
      exact min_le_min (by omega) (by omega)
  · unfold dbCalculateStreaks
    by_cases h : completedCount u s = 0
    · simp [h]
    · rw [if_neg h]
      exact min_le_right _ _
  · unfold dbCalculateStreaks
    by_cases h : completedCount u s = 0
    · simp [h]
    · rw [if_neg h]
      exact min_le_right _ _

/-- C10 witness: a user with 3 completed entries gets
`(min(2, 14), min(3, 30)) = (2, 3)`. -/
theorem dbCalculateStreaks_formula_w :
    dbCalculateStreaks 1 streakCxStore = (2, 3) := by
  have h := (dbCalculateStreaks_formula 1 streakCxStore).1 (by decide)
  rw [h]
  decide

/-- C2 (code bug): the database `calculateStreaks` is a count-based
placeholder, not the consecutive-calendar-day computation the claim
states: for a user whose 3 completed entries all fall on the same
calendar day it returns `(2, 3)` although the longest run of consecutive
satisfied dates has length 1. -/
theorem calculateStreaks_placeholder_diverges :
    dbCalculateStreaks 1 streakCxStore = (2, 3)
    ∧ specLongestStreak (completedDayNumbers 1 streakCxStore) = 1
    ∧ (dbCalculateStreaks 1 streakCxStore).2
        ≠ specLongestStreak (completedDayNumbers 1 streakCxStore)
    ∧ dbCalculateStreaks 1 emptyStore = (0, 0) := by
  decide

/-- C3 (code bug): for a progress entry with status `no-action`, the
database `getUserActivity` emits an item of type `completed` (its
`status === 'missed'` test can never hold for the documented status
values), while the claimed mapping — implemented by the in-memory
variant — emits `missed`; both emit exactly one item per entry. -/
theorem activity_type_mapping_diverges :
    (((dbGetUserActivity 0 1 noActionStore).filter fun it =>
        it.taskId.isSome).map fun it => (it.type, it.status))
      = [("completed", some "no-action")]
    ∧ (((memGetUserActivity 1 noActionStore).filter fun it =>
        it.taskId.isSome).map fun it => (it.type, it.status))
      = [("missed", some "no-action")]
    ∧ (dbGetUserActivity 0 1 noActionStore).length = 2
    ∧ (memGetUserActivity 1 noActionStore).length = 2 := by
  decide

/-- The invalid creation request of the C4 counterexample: duration 0 and
an empty task list. -/
def invalidBody : CreateChallengeBody :=
  { name := "Test Challenge", category := "fitness", duration := 0,
    tasks := some [] }

/-- C4 (code bug): the route validates with `insertChallengeSchema`, which
bounds neither `duration` nor `tasks`, so a request with `duration = 0`
and an empty task list is accepted with status 201 and a challenge is
persisted — although the repository's own `createChallengeSchema` rejects
exactly this input. -/
theorem postChallenge_skips_validation :
    (postChallenge 0 1 invalidBody emptyStore).1.1 = 201
    ∧ (postChallenge 0 1 invalidBody emptyStore).2.challenges.length = 1
    ∧ invalidBody.duration < 1
    ∧ invalidBody.tasks = some []
    ∧ createChallengeSchemaCheck invalidBody = false := by
  decide

/-- C1 (counterexample): `MemStorage.getUserStats` increments
`completedTasks` once per completed progress entry, not once per task:
with a single task holding two completed entries it reports 2 where the
claim demands 1. -/
theorem memGetUserStats_counts_entries :
    (memGetUserStats 0 0 1 memStatsCxStore).completedTasks = 2
    ∧ (memGetUserStats 0 0 1 memStatsCxStore).totalTasks = 1
    ∧ specCompletedTasks 1 memStatsCxStore = 1 := by
  decide

/-- C1 (amended): the database `getUserStats` counts `totalTasks` one per
task of the user's challenges and `completedTasks` one per task having at
least one completed entry, each such task counted exactly once; on the
cited example (challenge with 2 tasks, one of them with one completed and
one partial entry, plus a second challenge with 1 task and one completed
entry) it returns `totalTasks = 3` and `completedTasks = 2`. -/
theorem dbGetUserStats_per_task (u : Nat) (s : Store) :
    (dbGetUserStats u s).totalTasks = specTotalTasks u s
    ∧ (dbGetUserStats u s).completedTasks = specCompletedTasks u s
    ∧ (dbGetUserStats 1 statsExStore).totalTasks = 3
    ∧ (dbGetUserStats 1 statsExStore).completedTasks = 2 := by
  refine ⟨?_, ?_, by decide, by decide⟩
  · simp only [dbGetUserStats, specTotalTasks, List.length_flatMap]
    rfl
  · simp only [dbGetUserStats, specCompletedTasks, List.filter_flatMap,
      List.length_flatMap]
    rfl

/-- C9: `markChallengeCompleted` leaves tasks, progress entries and badges
untouched, and rewrites the challenge list pointwise: every field except
`isCompleted` is preserved, the targeted id gets `isCompleted = true`,
and any challenge with a different id is entirely unchanged. -/
theorem markChallengeCompleted_frame (cid : Nat) (s : Store) :
    (markChallengeCompleted cid s).2.tasks = s.tasks
    ∧ (markChallengeCompleted cid s).2.progress = s.progress
    ∧ (markChallengeCompleted cid s).2.badges = s.badges
    ∧ List.Forall₂
        (fun ch ch2 =>
          ch2.id = ch.id ∧ ch2.userId = ch.userId ∧ ch2.name = ch.name ∧
          ch2.category = ch.category ∧ ch2.duration = ch.duration ∧
          ch2.startDate = ch.startDate ∧ ch2.endDate = ch.endDate ∧
          ch2.createdAt = ch.createdAt ∧
          (ch.id = cid → ch2.isCompleted = true) ∧
          (ch.id ≠ cid → ch2 = ch))
        s.challenges (markChallengeCompleted cid s).2.challenges := by
  refine ⟨rfl, rfl, rfl, ?_⟩
  show List.Forall₂ _ s.challenges (s.challenges.map fun ch =>
    if ch.id = cid then { ch with isCompleted := true } else ch)
  induction s.challenges with
  | nil => exact List.Forall₂.nil
  | cons ch l ih =>
      refine List.Forall₂.cons ?_ ih
      by_cases h : ch.id = cid <;> simp [h]

/-- C9 witness: the frame property at a concrete store. -/
theorem markChallengeCompleted_frame_w :
    (markChallengeCompleted 1 statsExStore).2.tasks = statsExStore.tasks
    ∧ (markChallengeCompleted 1 statsExStore).2.badges
        = statsExStore.badges :=
  ⟨(markChallengeCompleted_frame 1 statsExStore).1,
   (markChallengeCompleted_frame 1 statsExStore).2.2.1⟩

/-- C8: both `getUserActivity` implementations return a permutation of the
merged generated sequence, sorted by date descending as the final step;
on the cited example (challenge created on day 1, completed-task entry on
day 3, badge earned on day 5) the database implementation returns exactly
the 3 items in the order [day-5 badge, day-3 completed, day-1 created],
and so does the in-memory one. -/
theorem getUserActivity_sorted (now : Int) (u : Nat) (s : Store) :
    List.Sorted dateGe (dbGetUserActivity now u s)
    ∧ (dbGetUserActivity now u s).Perm (dbGenActivities now u s)
    ∧ List.Sorted dateGe (memGetUserActivity u s)
    ∧ (memGetUserActivity u s).Perm (memGenActivities u s)
    ∧ ((dbGetUserActivity 0 1 activityExStore).map fun it =>
         (it.type, it.date))
        = [("badge", 5), ("completed", 3), ("created", 1)]
    ∧ (dbGetUserActivity 0 1 activityExStore).length = 3
    ∧ ((memGetUserActivity 1 activityExStore).map fun it =>
         (it.type, it.date))
        = [("badge", 5), ("completed", 3), ("created", 1)] :=
  ⟨List.sorted_insertionSort _ _, List.perm_insertionSort _ _,
   List.sorted_insertionSort _ _, List.perm_insertionSort _ _,
   by decide, by decide, by decide⟩

/-- C7: `markChallengeCompleted` sets `isCompleted = true` for the
targeted challenge; it is idempotent; on an already-completed challenge it
leaves the store unchanged and returns the already-completed record; on an
unknown id it returns `none` without modifying state; and no modelled
operation ever flips a challenge's `isCompleted` from `true` back to
`false`. -/
theorem markChallengeCompleted_props :
    (∀ (cid : Nat) (s : Store), (∀ ch ∈ s.challenges, ch.id ≠ cid) →
        markChallengeCompleted cid s = (none, s))
    ∧ (∀ (cid : Nat) (s : Store),
        markChallengeCompleted cid (markChallengeCompleted cid s).2
          = markChallengeCompleted cid s)
    ∧ (∀ (cid : Nat) (s : Store),
        ∀ x ∈ (markChallengeCompleted cid s).2.challenges,
          x.id = cid → x.isCompleted = true)
    ∧ (∀ (cid : Nat) (s : Store) (ch : Challenge),
        getChallenge cid s = some ch →
        (∀ x ∈ s.challenges, x.id = cid → x.isCompleted = true) →
        markChallengeCompleted cid s = (some ch, s)
          ∧ ch.isCompleted = true)
    ∧ (∀ (op : Op) (s : Store), ∀ ch ∈ s.challenges,
        ch.isCompleted = true →
        ∃ ch2 ∈ (applyOp op s).challenges,
          ch2.id = ch.id ∧ ch2.isCompleted = true) := by
  refine ⟨?_, ?_, ?_, ?_, ?_⟩
  · -- unknown id: no row matches, nothing is updated
    intro cid s h
    unfold markChallengeCompleted
    have hmap : s.challenges.map
        (fun ch => if ch.id = cid then { ch with isCompleted := true }
         else ch) = s.challenges := by
      have heach : ∀ a ∈ s.challenges,
          (if a.id = cid then { a with isCompleted := true } else a)
            = (fun x => x) a := by
        intro a ha
        simp [h a ha]
      rw [List.map_congr_left heach, List.map_id' _]
    rw [hmap]
    have hfil : s.challenges.filter (fun ch => ch.id == cid) = [] := by
      rw [List.filter_eq_nil_iff]
      intro a ha
      simp [h a ha]
    show ((s.challenges.filter fun ch => ch.id == cid).head?,
      { s with challenges := s.challenges }) = (none, s)
    rw [hfil]
    rfl
  · -- idempotence: updating twice equals updating once
    intro cid s
    unfold markChallengeCompleted
    have hff : ∀ a : Challenge,
        (fun ch => if ch.id = cid then { ch with isCompleted := true }
         else ch)
        ((fun ch => if ch.id = cid then { ch with isCompleted := true }
          else ch) a)
        = (fun ch => if ch.id = cid then { ch with isCompleted := true }
           else ch) a := by
      intro a
      by_cases h : a.id = cid <;> simp [h]
    have hmm : (s.challenges.map fun ch =>
        if ch.id = cid then { ch with isCompleted := true } else ch).map
          (fun ch => if ch.id = cid then { ch with isCompleted := true }
           else ch)
        = s.challenges.map fun ch =>
            if ch.id = cid then { ch with isCompleted := true } else ch := by
      rw [List.map_map]
      exact List.map_congr_left fun a _ => hff a
    rw [hmm]
  · -- the update sets isCompleted on every row with the targeted id
    intro cid s x hx hid
    exact mark_sets_completed cid s hx hid
  · -- already completed: state unchanged, same record returned
    intro cid s ch hg h2
    have hcm : ch.isCompleted = true := by
      have hmem : ch ∈ s.challenges.filter (fun x => x.id == cid) := by
        unfold getChallenge at hg
        cases hf : s.challenges.filter (fun x => x.id == cid) with
        | nil => rw [hf] at hg; cases hg
        | cons a t =>
            rw [hf] at hg
            injection hg with hg2
            rw [← hg2]
            exact List.mem_cons_self a t
      obtain ⟨hmem2, hid⟩ := List.mem_filter.mp hmem
      exact h2 ch hmem2 (by simpa using hid)
    refine ⟨?_, hcm⟩
    rw [mark_eq_of_completed cid s h2, hg]
  · -- no operation un-completes a challenge
    intro op s ch hmem hcomp
    cases op with
    | opCreateChallenge now ic =>
        refine ⟨ch, ?_, rfl, hcomp⟩
        show ch ∈ s.challenges ++ [(createChallenge now ic s).1]
        exact List.mem_append_left _ hmem
    | opCreateTask now it => exact ⟨ch, hmem, rfl, hcomp⟩
    | opLogTaskProgress now ip => exact ⟨ch, hmem, rfl, hcomp⟩
    | opCreateBadge now b => exact ⟨ch, hmem, rfl, hcomp⟩
    | opCreateBadgeIfNotExists now b =>
        refine ⟨ch, ?_, rfl, hcomp⟩
        show ch ∈ (awardBadgeAbsent now b s).challenges
        rw [award_challenges]
        exact hmem
    | opMarkChallengeCompleted cid =>
        refine ⟨if ch.id = cid then { ch with isCompleted := true }
          else ch, ?_, ?_, ?_⟩
        · exact List.mem_map_of_mem _ hmem
        · by_cases h : ch.id = cid <;> simp [h]
        · by_cases h : ch.id = cid <;> simp [h, hcomp]
    | opCheckAndAwardBadges now u c =>
        rcases caab_challenges now u c s with h | h
        · exact ⟨ch, h ▸ hmem, rfl, hcomp⟩
        · refine ⟨if ch.id = c then { ch with isCompleted := true }
            else ch, ?_, ?_, ?_⟩
          · show _ ∈ (checkAndAwardBadges now u c s).challenges
            rw [h]
            exact List.mem_map_of_mem _ hmem
          · by_cases hc : ch.id = c <;> simp [hc]
          · by_cases hc : ch.id = c <;> simp [hc, hcomp]
    | opPostChallenge now u body =>
        refine ⟨ch, ?_, rfl, hcomp⟩
        show ch ∈ ((postChallenge now u body s).2).challenges
        unfold postChallenge
        cases body.tasks with
        | none =>
            show ch ∈ s.challenges ++ [_]
            exact List.mem_append_left _ hmem
        | some ts =>
            rw [foldl_createTask_challenges]
            show ch ∈ s.challenges ++ [_]
            exact List.mem_append_left _ hmem

/-- A store whose only challenge is already completed. -/
def completedChStore : Store :=
  { emptyStore with
      challenges :=
        [{ id := 1, userId := 1, name := "C1", category := "fitness",
           duration := 7, startDate := 0, endDate := some (7 * msPerDay),
           isCompleted := true, createdAt := 0 }]
      nextChallengeId := 2 }

/-- C7 witness: an unknown id returns `none` leaving the empty store
unchanged, and marking the already-completed challenge of
`completedChStore` returns that record with the state unchanged. -/
theorem markChallengeCompleted_props_w :
    markChallengeCompleted 5 emptyStore = (none, emptyStore)
    ∧ markChallengeCompleted 1 completedChStore
        = (getChallenge 1 completedChStore, completedChStore) := by
  constructor
  · exact markChallengeCompleted_props.1 5 emptyStore (by decide)
  · have h := (markChallengeCompleted_props.2.2.2.1 1 completedChStore
      { id := 1, userId := 1, name := "C1", category := "fitness",
        duration := 7, startDate := 0, endDate := some (7 * msPerDay),
        isCompleted := true, createdAt := 0 } (by decide) (by decide)).1
    rw [h]
    decide

theorem award_establishes_hasBadge (now : Int) (b : InsertBadge)
    (s : Store) (c : Nat) (hb : b.challengeId = some c) (hc : c ≠ 0) :
    hasBadge (awardBadgeAbsent now b s) b.userId (some c) b.name := by
  unfold awardBadgeAbsent createBadgeIfNotExists
  cases h : findBadge b s with
  | some e =>
      have hm := List.find?_some h
      have hmem := List.mem_of_find?_eq_some h
      unfold badgeKeyMatch at hm
      rw [hb] at hm
      simp only [hc, if_true, Bool.and_eq_true, beq_iff_eq, ne_eq,
        not_false_eq_true] at hm
      exact ⟨e, hmem, hm.1.1, hm.2, hm.1.2⟩
  | none =>
      refine ⟨(createBadge now b s).1, ?_, rfl, ?_, rfl⟩
      · show _ ∈ s.badges ++ [(createBadge now b s).1]
        simp
      · show jsOrNull b.challengeId = some c
        rw [hb]
        simp [jsOrNull, hc]

theorem hasBadge_mono_award (now : Int) (b2 : InsertBadge) (s : Store)
    {u : Nat} {cid : Option Nat} {nm : String}
    (h : hasBadge s u cid nm) :
    hasBadge (awardBadgeAbsent now b2 s) u cid nm := by
  obtain ⟨e, hmem, he⟩ := h
  exact ⟨e, award_badges_mono now b2 s hmem, he⟩

theorem hasBadge_mono_awardIf (cond : Bool) (now : Int) (b2 : InsertBadge)
    (s : Store) {u : Nat} {cid : Option Nat} {nm : String}
    (h : hasBadge s u cid nm) :
    hasBadge (awardIf cond now b2 s) u cid nm := by
  unfold awardIf
  cases cond
  · exact h
  · exact hasBadge_mono_award now b2 s h

theorem find_none_of_not_hasBadge (b : InsertBadge) (s : Store) (c : Nat)
    (hb : b.challengeId = some c) (hc : c ≠ 0)
    (h : ¬ hasBadge s b.userId (some c) b.name) :
    findBadge b s = none := by
  cases hf : findBadge b s with
  | none => rfl
  | some e =>
      exfalso
      apply h
      have hm := List.find?_some hf
      have hmem := List.mem_of_find?_eq_some hf
      unfold badgeKeyMatch at hm
      rw [hb] at hm
      simp only [hc, if_true, Bool.and_eq_true, beq_iff_eq, ne_eq,
        not_false_eq_true] at hm
      exact ⟨e, hmem, hm.1.1, hm.2, hm.1.2⟩

theorem find_none_award_other (now : Int) (b b2 : InsertBadge) (s : Store)
    (hne : (b2.name == b.name) = false)
    (h : findBadge b s = none) :
    findBadge b (awardBadgeAbsent now b2 s) = none := by
  unfold awardBadgeAbsent createBadgeIfNotExists
  cases h2 : findBadge b2 s with
  | some e => exact h
  | none =>
      show findBadge b { s with
        badges := s.badges ++ [(createBadge now b2 s).1],
        nextBadgeId := s.nextBadgeId + 1 } = none
      unfold findBadge at h ⊢
      rw [List.find?_append, h]
      show List.find? (badgeKeyMatch b) [(createBadge now b2 s).1] = none
      have : badgeKeyMatch b (createBadge now b2 s).1 = false := by
        unfold badgeKeyMatch createBadge
        simp only [Bool.and_eq_true_iff]  -- keep shape; we only need name
        cases hbc : b.challengeId <;>
          simp [hne]
      simp [List.find?, this]

theorem find_none_awardIf_other (cond : Bool) (now : Int)
    (b b2 : InsertBadge) (s : Store)
    (hne : (b2.name == b.name) = false)
    (h : findBadge b s = none) :
    findBadge b (awardIf cond now b2 s) = none := by
  unfold awardIf
  cases cond
  · exact h
  · exact find_none_award_other now b b2 s hne h

theorem award_creates_desc (now : Int) (b : InsertBadge) (s : Store)
    (c : Nat) (hb : b.challengeId = some c) (hc : c ≠ 0)
    (h : findBadge b s = none) :
    hasBadgeDesc (awardBadgeAbsent now b s) b.userId (some c) b.name
      b.description := by
  unfold awardBadgeAbsent createBadgeIfNotExists
  rw [h]
  refine ⟨(createBadge now b s).1, ?_, rfl, ?_, rfl, rfl⟩
  · show _ ∈ s.badges ++ [(createBadge now b s).1]
    simp
  · show jsOrNull b.challengeId = some c
    rw [hb]
    simp [jsOrNull, hc]

/-- C6: after a progress log on an existing challenge, with
`daysDiff = floor((now - startDate) / 1 day)`, each reached threshold in
{7, 21, 30} leaves the correspondingly named badge present for
(userId, challengeId), and when `duration ≤ daysDiff + 1` the challenge
is marked completed and a "Challenge Completed" badge scoped to
(userId, challengeId) is present, freshly created with a description
naming the challenge whenever it was absent before the call. -/
theorem checkAndAwardBadges_awards (now : Int) (u c : Nat) (s : Store)
    (ch : Challenge) (hg : getChallenge c s = some ch) (hc : c ≠ 0) :
    (7 ≤ (now - ch.startDate).fdiv msPerDay →
        hasBadge (checkAndAwardBadges now u c s) u (some c) "7-Day Streak")
    ∧ (21 ≤ (now - ch.startDate).fdiv msPerDay →
        hasBadge (checkAndAwardBadges now u c s) u (some c) "21-Day Streak")
    ∧ (30 ≤ (now - ch.startDate).fdiv msPerDay →
        hasBadge (checkAndAwardBadges now u c s) u (some c)
          "30-Day Milestone")
    ∧ (ch.duration ≤ (now - ch.startDate).fdiv msPerDay + 1 →
        (∀ x ∈ (checkAndAwardBadges now u c s).challenges, x.id = c →
            x.isCompleted = true)
        ∧ hasBadge (checkAndAwardBadges now u c s) u (some c)
            "Challenge Completed"
        ∧ (¬ hasBadge s u (some c) "Challenge Completed" →
            hasBadgeDesc (checkAndAwardBadges now u c s) u (some c)
              "Challenge Completed"
              ("Completed the " ++ ch.name ++ " challenge"))) := by
  rw [caab_some now u c s ch hg]
  set d := (now - ch.startDate).fdiv msPerDay with hd
  set s1 := awardIf (decide (7 ≤ d)) now (badge7 u c) s with hs1
  set s2 := awardIf (decide (21 ≤ d)) now (badge21 u c) s1 with hs2
  set s3 := awardIf (decide (30 ≤ d)) now (badge30 u c) s2 with hs3
  have h7 : 7 ≤ d → hasBadge s3 u (some c) "7-Day Streak" := by
    intro h
    have h1 : hasBadge s1 u (some c) "7-Day Streak" := by
      rw [hs1, decide_eq_true h]
      show hasBadge (awardBadgeAbsent now (badge7 u c) s) _ _ _
      exact award_establishes_hasBadge now (badge7 u c) s c rfl hc
    rw [hs3, hs2]
    exact hasBadge_mono_awardIf _ now _ _
      (hasBadge_mono_awardIf _ now _ _ h1)
  have h21 : 21 ≤ d → hasBadge s3 u (some c) "21-Day Streak" := by
    intro h
    have h2 : hasBadge s2 u (some c) "21-Day Streak" := by
      rw [hs2, decide_eq_true h]
      show hasBadge (awardBadgeAbsent now (badge21 u c) s1) _ _ _
      exact award_establishes_hasBadge now (badge21 u c) s1 c rfl hc
    rw [hs3]
    exact hasBadge_mono_awardIf _ now _ _ h2
  have h30 : 30 ≤ d → hasBadge s3 u (some c) "30-Day Milestone" := by
    intro h
    rw [hs3, decide_eq_true h]
    show hasBadge (awardBadgeAbsent now (badge30 u c) s2) _ _ _
    exact award_establishes_hasBadge now (badge30 u c) s2 c rfl hc
  by_cases hdur : ch.duration ≤ d + 1
  · rw [if_pos hdur]
    refine ⟨fun h => ?_, fun h => ?_, fun h => ?_, fun _ => ⟨?_, ?_, ?_⟩⟩
    · exact hasBadge_mono_award now _ _ (h7 h)
    · exact hasBadge_mono_award now _ _ (h21 h)
    · exact hasBadge_mono_award now _ _ (h30 h)
    · intro x hx hxid
      rw [award_challenges] at hx
      exact mark_sets_completed c s3 hx hxid
    · exact award_establishes_hasBadge now (badgeCC u c ch.name) _ c rfl hc
    · intro hnot
      have hn0 : findBadge (badgeCC u c ch.name) s = none :=
        find_none_of_not_hasBadge _ s c rfl hc hnot
      have hn3 : findBadge (badgeCC u c ch.name) s3 = none := by
        rw [hs3, hs2, hs1]
        refine find_none_awardIf_other _ now _ _ _ (by rfl)
          (find_none_awardIf_other _ now _ _ _ (by rfl)
            (find_none_awardIf_other _ now _ _ _ (by rfl) hn0))
      have hnm : findBadge (badgeCC u c ch.name)
          (markChallengeCompleted c s3).2 = none := hn3
      exact award_creates_desc now (badgeCC u c ch.name) _ c rfl hc hnm
  · rw [if_neg hdur]
    refine ⟨h7, h21, h30, fun h => absurd h hdur⟩

/-- The challenge row of `badgeScenStore`. -/
def scenChallenge : Challenge :=
  { id := 1, userId := 1, name := "Morning Run", category := "fitness",
    duration := 7, startDate := jan1, endDate := some (jan1 + 7 * msPerDay),
    isCompleted := false, createdAt := jan1 }

/-- C6 witness: for the duration-7 challenge started 2024-01-01, a
completed entry logged at 2024-01-08 gives `daysDiff = 7`, so the call
leaves a "7-Day Streak" badge, marks the challenge completed, and leaves a
"Challenge Completed" badge described "Completed the Morning Run
challenge". -/
theorem checkAndAwardBadges_awards_w :
    hasBadge (checkAndAwardBadges jan8 1 1 badgeScenStore) 1 (some 1)
      "7-Day Streak"
    ∧ (∀ x ∈ (checkAndAwardBadges jan8 1 1 badgeScenStore).challenges,
        x.id = 1 → x.isCompleted = true)
    ∧ hasBadgeDesc (checkAndAwardBadges jan8 1 1 badgeScenStore) 1 (some 1)
        "Challenge Completed" "Completed the Morning Run challenge" := by
  have h := checkAndAwardBadges_awards jan8 1 1 badgeScenStore scenChallenge
    (by decide) (by decide)
  have hdur := h.2.2.2 (by decide)
  exact ⟨h.1 (by decide), hdur.1, hdur.2.2 (by decide)⟩

theorem awardIf_fix (cond : Bool) (now : Int) (b : InsertBadge) (s : Store)
    (h : cond = true → (findBadge b s).isSome) :
    awardIf cond now b s = s := by
  cases cond
  · rfl
  · exact awardIf_noop_of_isSome true now b s (h rfl)

theorem getChallenge_of_challenges_eq {s t : Store} (c : Nat)
    (h : s.challenges = t.challenges) : getChallenge c s = getChallenge c t := by
  unfold getChallenge
  rw [h]

theorem caab_fix (now : Int) (u c : Nat) (s : Store) :
    checkAndAwardBadges now u c (checkAndAwardBadges now u c s)
      = checkAndAwardBadges now u c s := by
  cases hg : getChallenge c s with
  | none =>
      rw [caab_none now u c s hg, caab_none now u c s hg]
  | some ch =>
      have hmain := caab_some now u c s ch hg
      set d := (now - ch.startDate).fdiv msPerDay with hd
      set s1 := awardIf (decide (7 ≤ d)) now (badge7 u c) s with hs1
      set s2 := awardIf (decide (21 ≤ d)) now (badge21 u c) s1 with hs2
      set s3 := awardIf (decide (30 ≤ d)) now (badge30 u c) s2 with hs3
      have hchal3 : s3.challenges = s.challenges := by
        rw [hs3, hs2, hs1, awardIf_challenges, awardIf_challenges,
          awardIf_challenges]
      by_cases hdur : ch.duration ≤ d + 1
      · rw [if_pos hdur] at hmain
        set sF := awardBadgeAbsent now (badgeCC u c ch.name)
          (markChallengeCompleted c s3).2 with hsF
        set chF : Challenge :=
          if ch.id = c then { ch with isCompleted := true } else ch with hchF
        have hgF : getChallenge c sF = some chF := by
          rw [hsF, getChallenge_award, getChallenge_mark,
            getChallenge_of_challenges_eq c hchal3, hg]
          rfl
        have hstart : chF.startDate = ch.startDate := by
          rw [hchF]; by_cases hh : ch.id = c <;> simp [hh]
        have hdd : chF.duration = ch.duration := by
          rw [hchF]; by_cases hh : ch.id = c <;> simp [hh]
        have hnm : chF.name = ch.name := by
          rw [hchF]; by_cases hh : ch.id = c <;> simp [hh]
        have hmainF := caab_some now u c sF chF hgF
        rw [hstart, hdd, hnm] at hmainF
        -- inner awards on sF are no-ops: the badges are already present
        have hf7 : decide (7 ≤ d) = true →
            (findBadge (badge7 u c) sF).isSome := by
          intro hb7
          have h1 : (findBadge (badge7 u c) s1).isSome := by
            rw [hs1, hb7]
            exact award_establishes now (badge7 u c) s
          have h3 : (findBadge (badge7 u c) s3).isSome := by
            rw [hs3, hs2]
            exact find_mono_awardIf _ now _ _ _
              (find_mono_awardIf _ now _ _ _ h1)
          rw [hsF]
          exact find_mono_award now _ _ _ h3
        have hf21 : decide (21 ≤ d) = true →
            (findBadge (badge21 u c) sF).isSome := by
          intro hb
          have h2 : (findBadge (badge21 u c) s2).isSome := by
            rw [hs2, hb]
            exact award_establishes now (badge21 u c) s1
          have h3 : (findBadge (badge21 u c) s3).isSome := by
            rw [hs3]
            exact find_mono_awardIf _ now _ _ _ h2
          rw [hsF]
          exact find_mono_award now _ _ _ h3
        have hf30 : decide (30 ≤ d) = true →
            (findBadge (badge30 u c) sF).isSome := by
          intro hb
          have h3 : (findBadge (badge30 u c) s3).isSome := by
            rw [hs3, hb]
            exact award_establishes now (badge30 u c) s2
          rw [hsF]
          exact find_mono_award now _ _ _ h3
        rw [awardIf_fix _ now _ sF hf7, awardIf_fix _ now _ sF hf21,
          awardIf_fix _ now _ sF hf30, if_pos hdur] at hmainF
        have hcompF : ∀ x ∈ sF.challenges, x.id = c →
            x.isCompleted = true := by
          intro x hx hxid
          rw [hsF, award_challenges] at hx
          exact mark_sets_completed c s3 hx hxid
        rw [mark_noop_of_completed c sF hcompF] at hmainF
        have hccF : (findBadge (badgeCC u c ch.name) sF).isSome := by
          rw [hsF]
          exact award_establishes now _ _
        rw [award_noop_of_isSome now _ sF hccF] at hmainF
        rw [hmain]
        exact hmainF
      · rw [if_neg hdur] at hmain
        have hg3 : getChallenge c s3 = some ch := by
          rw [getChallenge_of_challenges_eq c hchal3, hg]
        have hmainF := caab_some now u c s3 ch hg3
        have hf7 : decide (7 ≤ d) = true →
            (findBadge (badge7 u c) s3).isSome := by
          intro hb7
          have h1 : (findBadge (badge7 u c) s1).isSome := by
            rw [hs1, hb7]
            exact award_establishes now (badge7 u c) s
          rw [hs3, hs2]
          exact find_mono_awardIf _ now _ _ _
            (find_mono_awardIf _ now _ _ _ h1)
        have hf21 : decide (21 ≤ d) = true →
            (findBadge (badge21 u c) s3).isSome := by
          intro hb
          have h2 : (findBadge (badge21 u c) s2).isSome := by
            rw [hs2, hb]
            exact award_establishes now (badge21 u c) s1
          rw [hs3]
          exact find_mono_awardIf _ now _ _ _ h2
        have hf30 : decide (30 ≤ d) = true →
            (findBadge (badge30 u c) s3).isSome := by
          intro hb
          rw [hs3, hb]
          exact award_establishes now (badge30 u c) s2
        rw [awardIf_fix _ now _ s3 hf7, awardIf_fix _ now _ s3 hf21,
          awardIf_fix _ now _ s3 hf30, if_neg hdur] at hmainF
        rw [hmain]
        exact hmainF

theorem caab_iterate (now : Int) (u c : Nat) (s : Store) (N : Nat)
    (h : 1 ≤ N) :
    (checkAndAwardBadges now u c)^[N] s = checkAndAwardBadges now u c s := by
  induction N with
  | zero => omega
  | succ n ih =>
      rw [Function.iterate_succ_apply']
      by_cases hn : 1 ≤ n
      · rw [ih hn, caab_fix]
      · have hn0 : n = 0 := by omega
        subst hn0
        rfl

theorem award_keys_nodup (now : Int) (b : InsertBadge) (s : Store)
    (h : BadgeKeysNodup s) : BadgeKeysNodup (awardBadgeAbsent now b s) := by
  unfold awardBadgeAbsent createBadgeIfNotExists
  cases hf : findBadge b s with
  | some e => exact h
  | none =>
      show BadgeKeysNodup { s with
        badges := s.badges ++ [(createBadge now b s).1],
        nextBadgeId := s.nextBadgeId + 1 }
      unfold BadgeKeysNodup at h ⊢
      rw [List.map_append, List.nodup_append]
      refine ⟨h, List.nodup_singleton _, ?_⟩
      intro k hk hk2
      simp only [List.map_cons, List.map_nil, List.mem_singleton] at hk2
      obtain ⟨e, hel, hke⟩ := List.mem_map.mp hk
      have hnone := List.find?_eq_none.mp hf e hel
      apply hnone
      rw [hk2] at hke
      unfold badgeKey at hke
      have heu : e.userId = b.userId := congrArg Prod.fst hke
      have hen : e.name = b.name := congrArg Prod.fst (congrArg Prod.snd hke)
      have hec : e.challengeId = jsOrNull b.challengeId :=
        congrArg Prod.snd (congrArg Prod.snd hke)
      unfold badgeKeyMatch
      cases hb : b.challengeId with
      | none =>
          rw [hb] at hec
          simp only [jsOrNull] at hec
          simp [heu, hen, hec]
      | some cb =>
          rw [hb] at hec
          by_cases hcb : cb = 0
          · subst hcb
            simp only [jsOrNull, if_pos rfl] at hec
            simp [heu, hen, hec]
          · simp only [jsOrNull, if_neg hcb] at hec
            simp [heu, hen, hec, hcb]

theorem awardIf_keys_nodup (cond : Bool) (now : Int) (b : InsertBadge)
    (s : Store) (h : BadgeKeysNodup s) :
    BadgeKeysNodup (awardIf cond now b s) := by
  unfold awardIf
  cases cond
  · exact h
  · exact award_keys_nodup now b s h

theorem caab_keys_nodup (now : Int) (u c : Nat) (s : Store)
    (h : BadgeKeysNodup s) :
    BadgeKeysNodup (checkAndAwardBadges now u c s) := by
  cases hg : getChallenge c s with
  | none => rw [caab_none now u c s hg]; exact h
  | some ch =>
      rw [caab_some now u c s ch hg]
      have h3 : BadgeKeysNodup
          (awardIf (decide (30 ≤ (now - ch.startDate).fdiv msPerDay)) now
            (badge30 u c)
            (awardIf (decide (21 ≤ (now - ch.startDate).fdiv msPerDay)) now
              (badge21 u c)
              (awardIf (decide (7 ≤ (now - ch.startDate).fdiv msPerDay)) now
                (badge7 u c) s))) :=
        awardIf_keys_nodup _ now _ _
          (awardIf_keys_nodup _ now _ _ (awardIf_keys_nodup _ now _ _ h))
      by_cases hdur :
          ch.duration ≤ (now - ch.startDate).fdiv msPerDay + 1
      · rw [if_pos hdur]
        exact award_keys_nodup now _ _ h3
      · rw [if_neg hdur]
        exact h3

/-- C5: calling `checkAndAwardBadges(u, c)` N ≥ 1 times with no new
progress in between produces the same store as one call, and preserves
at-most-one-badge-per-(userId, name, challengeId); and
`createBadgeIfNotExists` returns an existing matching row (including the
null-challengeId matching case) with the store unchanged, otherwise
appends and returns exactly one new row carrying the requested key. -/
theorem badge_award_idempotent (now : Int) (u c : Nat) (s : Store)
    (h : BadgeKeysNodup s) :
    (∀ N : Nat, 1 ≤ N →
        (checkAndAwardBadges now u c)^[N] s
          = checkAndAwardBadges now u c s)
    ∧ BadgeKeysNodup (checkAndAwardBadges now u c s)
    ∧ (∀ (b : InsertBadge) (st : Store) (e : Badge),
        findBadge b st = some e →
          createBadgeIfNotExists now b st = (e, st) ∧ e ∈ st.badges
            ∧ badgeKeyMatch b e = true)
    ∧ (∀ (b : InsertBadge) (st : Store), findBadge b st = none →
        (createBadgeIfNotExists now b st).2.badges
            = st.badges ++ [(createBadgeIfNotExists now b st).1]
          ∧ (createBadgeIfNotExists now b st).1.userId = b.userId
          ∧ (createBadgeIfNotExists now b st).1.name = b.name
          ∧ (createBadgeIfNotExists now b st).1.challengeId
              = jsOrNull b.challengeId) := by
  refine ⟨fun N hN => caab_iterate now u c s N hN,
    caab_keys_nodup now u c s h, ?_, ?_⟩
  · intro b st e hf
    unfold createBadgeIfNotExists
    rw [hf]
    exact ⟨rfl, List.mem_of_find?_eq_some hf, List.find?_some hf⟩
  · intro b st hf
    unfold createBadgeIfNotExists
    rw [hf]
    exact ⟨rfl, rfl, rfl, rfl⟩

/-- The badge row pre-existing in `oneBadgeStore`. -/
def existingBadge : Badge :=
  { id := 1, userId := 1, challengeId := some 1, name := "7-Day Streak",
    description := "Completed 7 consecutive days of tasks", earnedAt := 0 }

/-- C5 witness: three badge-check calls on the scenario store equal one
call; the resulting badge keys stay distinct; `createBadgeIfNotExists`
returns the pre-existing row of `oneBadgeStore` unchanged; and on the
empty store it appends exactly one new row. -/
theorem badge_award_idempotent_w :
    (checkAndAwardBadges jan8 1 1)^[3] badgeScenStore
      = checkAndAwardBadges jan8 1 1 badgeScenStore
    ∧ BadgeKeysNodup (checkAndAwardBadges jan8 1 1 badgeScenStore)
    ∧ createBadgeIfNotExists jan8 (badge7 1 1) oneBadgeStore
        = (existingBadge, oneBadgeStore)
    ∧ (createBadgeIfNotExists jan8 (badge7 1 1) emptyStore).2.badges
        = emptyStore.badges
          ++ [(createBadgeIfNotExists jan8 (badge7 1 1) emptyStore).1] := by
  have h := badge_award_idempotent jan8 1 1 badgeScenStore (by decide)
  exact ⟨h.1 3 (by decide), h.2.1,
    (h.2.2.1 (badge7 1 1) oneBadgeStore existingBadge (by decide)).1,
    (h.2.2.2 (badge7 1 1) emptyStore (by decide)).1⟩

end Kramasikshna
